import Mathlib

/-!
Shallow embedding of the serena-backend resolver (src/main.py).

The repository is a FastAPI service.  Its testable core is:
  - `extract_video_id`  (src/main.py lines 65-70): regex extraction of a
    video identifier from a user-supplied URL;
  - `youtube_search`    (lines 76-105): search adapter mapping raw yt-dlp
    entries to song summaries;
  - `resolve_audio_url` (lines 111-210): the multi-provider resolution
    chain with a bitrate-ceiling selection rule per provider;
  - the `/search` and `/resolve` endpoints (lines 216-232, 279-286).

Network and library calls are modelled by explicit environments mapping
request URLs to response values; a Python `except` path (network error,
JSON parse error, any raised exception inside the provider block) is the
explicit response value `failure`.  Python dict lookups `d.get(k)` are
modelled with `Option` fields (`none` = key absent or null), and Python
truthiness of a string/number is modelled explicitly (`""` and `0` are
falsy).
-/

namespace Serena

/-- One raw candidate stream descriptor, as parsed from a provider's JSON.
`url`, `bitrate` are read by the code; `itag` and `mimeType` are fields the
providers ship (`mimeType` is read only by the youtubei adapter, `itag` is
never read). -/
structure StreamDescriptor where
  url : Option String
  bitrate : Option Nat
  itag : Option Nat
  mimeType : Option String
deriving DecidableEq, Repr

/-- The parsed JSON body of a provider response: the code reads the
`audioStreams` key (Piped shape) or the `adaptiveFormats` key (youtubei
shape); `none` means the key is absent or null. -/
structure RespBody where
  audioStreams : Option (List StreamDescriptor)
  adaptiveFormats : Option (List StreamDescriptor)
deriving DecidableEq, Repr

/-- Outcome of one `requests.get` plus JSON parse: `failure` is any raised
exception (network error, timeout, malformed JSON — the Python `except`
path), `ok status body` a received response with parsed body. -/
inductive FetchResult where
  | failure
  | ok (status : Nat) (body : RespBody)
deriving DecidableEq, Repr

/-- Python truthiness of `s.get("bitrate") and s.get("bitrate") <= 128000`:
the bitrate key must be present, non-zero, and within the 128000 ceiling. -/
def inCeiling (s : StreamDescriptor) : Bool :=
  match s.bitrate with
  | some b => b != 0 && decide (b ≤ 128000)
  | none => false

/-- Sort key `x.get("bitrate", 0)` used by the per-provider ranking. -/
def bitrateKey (s : StreamDescriptor) : Nat := s.bitrate.getD 0

/-- One step of computing `sorted(l, key)[-1]`: keep the later element on
key ties, matching Python's stable sort followed by `[-1]`. -/
def argmaxStep {α : Type} (key : α → Nat) (acc : Option α) (s : α) : Option α :=
  match acc with
  | none => some s
  | some b => if key b ≤ key s then some s else some b

/-- `sorted(l, key)[-1]` for a stable sort: the last element of the list
attaining the maximal key (`none` on the empty list). -/
def lastArgmax {α : Type} (key : α → Nat) (l : List α) : Option α :=
  l.foldl (argmaxStep key) none

/-- Python truthiness of an optional string (`best.get("url")`,
`f.get("url")`): present and non-empty. -/
def truthyStr (o : Option String) : Bool :=
  match o with
  | some s => s != ""
  | none => false

/-- The per-provider selection, src/main.py lines 129-139 (and its verbatim
copies at lines 151-161 and 174-184): keep streams with truthy bitrate
`<= 128000`; if that filter is empty fall back to the whole list; take the
bitrate-maximal one (last on ties, matching Python's stable sort and
`[-1]`); return its URL if truthy, else nothing. -/
def selectBest (streams : List StreamDescriptor) : Option String :=
  let filtered := streams.filter inCeiling
  let pool := if filtered = [] then streams else filtered
  match lastArgmax bitrateKey pool with
  | some best =>
      match best.url with
      | some u => if u != "" then some u else none
      | none => none
  | none => none

/-- Processing of one Piped-shaped provider response, src/main.py
lines 124-139: require status 200, read `audioStreams` (absent key gives
`[]` via `or []`), require a non-empty list, then select. -/
def processPiped (r : FetchResult) : Option String :=
  match r with
  | .failure => none
  | .ok status body =>
      if status = 200 then
        let streams := body.audioStreams.getD []
        if streams = [] then none else selectBest streams
      else none

/-- Substring occurrence test on character lists (Python's `in` for
strings), used for `"audio" in f.get("mimeType", "")` and the
`"youtube.com" in q` checks. -/
def isPre : List Char → List Char → Bool
  | [], _ => true
  | _ :: _, [] => false
  | a :: tag, b :: l => a == b && isPre tag l

def listContains (needle : List Char) : List Char → Bool
  | [] => isPre needle []
  | c :: rest => isPre needle (c :: rest) || listContains needle rest

def strContains (needle hay : String) : Bool :=
  listContains needle.toList hay.toList

/-- Processing of the youtubei provider response, src/main.py
lines 168-184: require status 200, read `adaptiveFormats`, keep formats
whose `mimeType` (defaulted to `""`) contains `"audio"`, require that list
non-empty, then apply the same bitrate selection. -/
def processYoutubei (r : FetchResult) : Option String :=
  match r with
  | .failure => none
  | .ok status body =>
      if status = 200 then
        let formats := body.adaptiveFormats.getD []
        let audioFormats := formats.filter fun f =>
          strContains "audio" (f.mimeType.getD "")
        if audioFormats = [] then none else selectBest audioFormats
      else none

/-- One yt-dlp format dict as read by the final fallback (lines 202-206):
`url`, `abr`, `tbr`. -/
structure YtdlpFormat where
  url : Option String
  abr : Option Nat
  tbr : Option Nat
deriving DecidableEq, Repr

/-- Result of `ydl.extract_info` in the final fallback: `failure` is any
raised exception; `info url formats` models the returned dict, where
`url = some u` means the `"url"` key is present with string value `u`
(the code tests key presence, not truthiness, at line 199). -/
inductive YtdlpResult where
  | failure
  | info (url : Option String) (formats : Option (List YtdlpFormat))
deriving DecidableEq, Repr

/-- Sort key `x.get("abr") or x.get("tbr") or 0` (line 205): first truthy
of abr, tbr, else 0 (a zero tbr and a missing tbr both give 0). -/
def ytdlpKey (f : YtdlpFormat) : Nat :=
  match f.abr with
  | some a => if a ≠ 0 then a else f.tbr.getD 0
  | none => f.tbr.getD 0

/-- The yt-dlp final fallback, src/main.py lines 197-206: if the info dict
has a `url` key return it unconditionally; otherwise among formats with a
truthy url take the `abr`/`tbr`-maximal one and return its url. -/
def processYtdlp (r : YtdlpResult) : Option String :=
  match r with
  | .failure => none
  | .info url formats =>
      match url with
      | some u => some u
      | none =>
          let fmts := formats.getD []
          let audioFmts := fmts.filter fun f => truthyStr f.url
          match lastArgmax ytdlpKey audioFmts with
          | some best => some (best.url.getD "")
          | none => none

/-- The configured fast mirror instances, src/main.py lines 19-23. -/
def PIPED_INSTANCES : List String :=
  ["https://pipedapi.kavin.rocks",
   "https://pipedapi.in.projectsegfau.lt",
   "https://pipedapi.brighteon.wtf"]

/-- Request URL built at line 123 / 145. -/
def pipedStreamUrl (instanceUrl videoId : String) : String :=
  instanceUrl ++ "/streams/" ++ videoId

/-- The upstream world for one resolution request: `fetch` gives the
response of `requests.get` at each URL, `ytdlp` the result of
`ydl.extract_info` at each watch URL. -/
structure ResolveEnv where
  fetch : String → FetchResult
  ytdlp : String → YtdlpResult

/-- The loop over PIPED instances, src/main.py lines 121-141: first
instance whose processed response yields a URL wins. -/
def tryPiped (env : ResolveEnv) (videoId : String) : List String → Option String
  | [] => none
  | inst :: rest =>
      match processPiped (env.fetch (pipedStreamUrl inst videoId)) with
      | some u => some u
      | none => tryPiped env videoId rest

/-- The resolution chain, src/main.py lines 111-210: Piped instances in
order, then piped.video, then the youtubei API, then yt-dlp; exhaustion
raises `RuntimeError("No audio URL found after all resolvers")`. -/
def resolve_audio_url (env : ResolveEnv) (videoId : String) :
    Except String String :=
  match tryPiped env videoId PIPED_INSTANCES with
  | some u => .ok u
  | none =>
  match processPiped (env.fetch (pipedStreamUrl "https://piped.video" videoId)) with
  | some u => .ok u
  | none =>
  match processYoutubei
      (env.fetch ("https://yt-api.yashvardhan.info/api/v1/video?id=" ++ videoId)) with
  | some u => .ok u
  | none =>
  match processYtdlp (env.ytdlp ("https://www.youtube.com/watch?v=" ++ videoId)) with
  | some u => .ok u
  | none => .error "No audio URL found after all resolvers"

/-- Character class `[A-Za-z0-9_-]` of the extraction regex (line 66). -/
def idChar (c : Char) : Bool :=
  c.isAlpha || c.isDigit || c == '_' || c == '-'

/-- Literal alternative `v=` of the regex. -/
def vTag : List Char := ['v', '=']

/-- Literal alternative `youtu\.be/` of the regex. -/
def shortTag : List Char := ['y', 'o', 'u', 't', 'u', '.', 'b', 'e', '/']

/-- Attempt to match one literal alternative at the current position:
the literal must be a prefix here and be followed by at least one
identifier character; the capture is the maximal identifier run
(the greedy group `([A-Za-z0-9_-]+)`). -/
def matchTag (tag l : List Char) : Option (List Char) :=
  if isPre tag l then
    let cap := (l.drop tag.length).takeWhile idChar
    if cap = [] then none else some cap
  else none

/-- One position of `re.search`: ordered alternation tries `v=` first,
then `youtu.be/`, at the same position. -/
def tryPos (l : List Char) : Option (List Char) :=
  match matchTag vTag l with
  | some cap => some cap
  | none => matchTag shortTag l

/-- `re.search` scan: try each position left to right, return the first
capture found. -/
def searchFrom : List Char → Option (List Char)
  | [] => none
  | c :: rest =>
      match tryPos (c :: rest) with
      | some cap => some cap
      | none => searchFrom rest

/-- src/main.py lines 65-70: `re.search(r"(?:v=|youtu\.be/)([A-Za-z0-9_-]+)", url)`,
raising `ValueError("Invalid YouTube URL")` when nothing matches, else
returning the captured group. -/
def extract_video_id (url : String) : Except String String :=
  match searchFrom url.toList with
  | some cap => .ok (String.mk cap)
  | none => .error "Invalid YouTube URL"

/-- A position in the scanned string at which the regex can match: some
occurrence of `v=` or of `youtu.be/` immediately followed by at least one
identifier character. -/
def MatchSite (l : List Char) : Prop :=
  ∃ pre c rest, idChar c = true ∧
    (l = pre ++ vTag ++ c :: rest ∨ l = pre ++ shortTag ++ c :: rest)

/-!  Search adapter (src/main.py lines 76-105 and the /search endpoint). -/

/-- One raw yt-dlp entry as read by the mapping at lines 96-104: each
field `none` models an absent (or null) dict key. -/
structure RawEntry where
  id : Option String
  title : Option String
  uploader : Option String
  thumbnail : Option String
deriving DecidableEq, Repr

/-- The normalized song summary built at lines 99-104. -/
structure Song where
  title : String
  artist : String
  thumbnail : String
  url : String
deriving DecidableEq, Repr

/-- Python `x or d` for an optional string: the default is used when the
key is absent or the value is the (falsy) empty string. -/
def orDefault (o : Option String) (d : String) : String :=
  match o with
  | some s => if s != "" then s else d
  | none => d

/-- The per-entry mapping of lines 97-104, including the thumbnail
fallback derived from the id and the empty-string defaults when the id is
falsy. -/
def toSong (e : RawEntry) : Song :=
  { title := orDefault e.title "Unknown"
    artist := orDefault e.uploader "Unknown Artist"
    thumbnail :=
      orDefault e.thumbnail
        (if truthyStr e.id then
          "https://img.youtube.com/vi/" ++ e.id.getD "" ++ "/hqdefault.jpg"
        else "")
    url :=
      if truthyStr e.id then
        "https://www.youtube.com/watch?v=" ++ e.id.getD ""
      else "" }

/-- Python `str.strip()`: drop whitespace from both ends. -/
def pyStrip (s : String) : String :=
  String.mk
    (((s.toList.dropWhile Char.isWhitespace).reverse.dropWhile
        Char.isWhitespace).reverse)

/-- The URL-query test at line 88 (and line 220): the query contains
`youtube.com` or `youtu.be`. -/
def isYoutubeQuery (q : String) : Bool :=
  strContains "youtube.com" q || strContains "youtu.be" q

/-- A keyword-search result dict: `entries` is the `"entries"` key
(`none` = key absent, in which case line 93 falls back to `[info]`,
the dict itself viewed as a single entry `selfEntry`). -/
structure SearchInfo where
  entries : Option (List RawEntry)
  selfEntry : RawEntry
deriving Repr

/-- The scraping library for one request: `urlLookup` is
`ydl.extract_info(query)` on a URL-like query (`none` = the call raised),
`keywordSearch` is `ydl.extract_info("ytsearch{limit}:{query}")`. -/
structure SearchEnv where
  urlLookup : String → Option RawEntry
  keywordSearch : String → Nat → Option SearchInfo

/-- src/main.py lines 76-105: URL-like queries are a single-item lookup
(`entries = [info]`), otherwise a keyword search whose `entries` default
to `[info]`; then `entries[:limit]` are mapped to songs.  A raised
library call becomes an error that the endpoint turns into a 400. -/
def youtube_search (env : SearchEnv) (query : String) (limit : Nat) :
    Except String (List Song) :=
  if isYoutubeQuery query then
    match env.urlLookup query with
    | none => .error "extract_info raised"
    | some info => .ok ((([info] : List RawEntry).take limit).map toSong)
  else
    match env.keywordSearch query limit with
    | none => .error "extract_info raised"
    | some si => .ok (((si.entries.getD [si.selfEntry]).take limit).map toSong)

/-- Python `str.lower()` on the characters of a string. -/
def pyLower (s : String) : String :=
  String.mk (s.toList.map Char.toLower)

/-- The music-keyword relevance test of lines 224-228: the lowercased
`title + " " + artist` contains one of the four keywords. -/
def keywordRelevant (s : Song) : Bool :=
  ["music", "song", "audio", "track"].any fun k =>
    strContains k (pyLower (s.title ++ " " ++ s.artist))

/-- The POST /search endpoint, src/main.py lines 216-235: strip the query,
search with limit 15, apply the keyword filter only to non-URL queries,
truncate to 15; any exception becomes a 400 (modelled as `.error`). -/
def search_song (env : SearchEnv) (query : String) :
    Except String (List Song) :=
  let q := pyStrip query
  let isYt := isYoutubeQuery q
  match youtube_search env q 15 with
  | .error e => .error ("Search failed: " ++ e)
  | .ok raw =>
      let filtered := if isYt then raw else raw.filter keywordRelevant
      .ok (filtered.take 15)

/-- Response of an endpoint as seen by the HTTP client. -/
inductive ApiResult where
  | success (audioUrl : String)
  | httpError (code : Nat) (msg : String)
deriving DecidableEq, Repr

/-- The POST /resolve endpoint, src/main.py lines 279-286: strip the URL,
extract the id, run the chain; any exception (invalid URL or exhausted
chain) becomes a 400 with message `Resolve failed: {e}`. -/
def resolve_audio (env : ResolveEnv) (reqUrl : String) : ApiResult :=
  match extract_video_id (pyStrip reqUrl) with
  | .error e => .httpError 400 ("Resolve failed: " ++ e)
  | .ok vid =>
      match resolve_audio_url env vid with
      | .ok u => .success u
      | .error e => .httpError 400 ("Resolve failed: " ++ e)

/-!  Concrete sample data used to exercise the definitions. -/

/-- A within-ceiling candidate. -/
def dLow : StreamDescriptor := ⟨some "https://cdn.example/low", some 70000, some 250, none⟩

/-- An above-ceiling candidate with the smaller of the two big bitrates. -/
def dHigh : StreamDescriptor := ⟨some "https://cdn.example/high", some 160000, some 251, none⟩

/-- An above-ceiling candidate with the largest bitrate. -/
def dTop : StreamDescriptor := ⟨some "https://cdn.example/top", some 200000, none, none⟩

/-- A within-ceiling candidate whose URL carries the `.m3u8`
playlist-manifest marker. -/
def dM3u8 : StreamDescriptor := ⟨some "https://cdn.example/master.m3u8", some 96000, some 250, none⟩

/-- A world where the first configured Piped instance serves only the
above-ceiling itag-251 candidate, the second serves the within-ceiling
itag-250 candidate, and every other upstream call fails. -/
def envTier : ResolveEnv :=
  { fetch := fun u =>
      if u = "https://pipedapi.kavin.rocks/streams/vid123" then
        .ok 200 ⟨some [dHigh], none⟩
      else if u = "https://pipedapi.in.projectsegfau.lt/streams/vid123" then
        .ok 200 ⟨some [dLow], none⟩
      else .failure
    ytdlp := fun _ => .failure }

/-- A world where every upstream call fails. -/
def envDead : ResolveEnv :=
  { fetch := fun _ => .failure, ytdlp := fun _ => .failure }

/-- A raw entry for the canonical test video. -/
def sampleEntry : RawEntry :=
  ⟨some "dQw4w9WgXcQ", some "Never Gonna Give You Up", some "Rick Astley", none⟩

/-- A raw entry whose title and uploader contain none of the four music
keywords. -/
def lofiEntry : RawEntry :=
  ⟨some "zzz1", some "Lofi Beats", some "ChillChannel", none⟩

/-- An entry with every key absent. -/
def blankEntry : RawEntry := ⟨none, none, none, none⟩

/-- A scraping-library world: URL lookup knows the canonical short link,
keyword search always returns the single non-keyword-relevant entry. -/
def envSearch : SearchEnv :=
  { urlLookup := fun q =>
      if q = "https://youtu.be/dQw4w9WgXcQ" then some sampleEntry else none
    keywordSearch := fun _ _ => some ⟨some [lofiEntry], blankEntry⟩ }

/-!  General lemmas about the selection primitive. -/

theorem foldl_argmaxStep_some {α : Type} (key : α → Nat) :
    ∀ (l : List α) (b : α),
      ∃ s, l.foldl (argmaxStep key) (some b) = some s ∧
        (s = b ∨ s ∈ l) ∧ key b ≤ key s ∧ ∀ t ∈ l, key t ≤ key s := by
  intro l
  induction l with
  | nil =>
      intro b
      exact ⟨b, rfl, Or.inl rfl, Nat.le_refl _, by simp⟩
  | cons a l ih =>
      intro b
      rw [List.foldl_cons]
      by_cases h : key b ≤ key a
      · have hstep : argmaxStep key (some b) a = some a := by
          simp [argmaxStep, h]
        obtain ⟨s, hs, hmem, hle, hall⟩ := ih a
        refine ⟨s, by rw [hstep]; exact hs, ?_, Nat.le_trans h hle, ?_⟩
        · rcases hmem with rfl | hmem
          · exact Or.inr (List.mem_cons_self _ _)
          · exact Or.inr (List.mem_cons_of_mem _ hmem)
        · intro t ht
          rcases List.mem_cons.mp ht with rfl | ht
          · exact hle
          · exact hall t ht
      · have hstep : argmaxStep key (some b) a = some b := by
          simp [argmaxStep, h]
        obtain ⟨s, hs, hmem, hle, hall⟩ := ih b
        refine ⟨s, by rw [hstep]; exact hs, ?_, hle, ?_⟩
        · rcases hmem with rfl | hmem
          · exact Or.inl rfl
          · exact Or.inr (List.mem_cons_of_mem _ hmem)
        · intro t ht
          rcases List.mem_cons.mp ht with rfl | ht
          · exact Nat.le_trans (Nat.le_of_not_le h) hle
          · exact hall t ht

theorem lastArgmax_spec {α : Type} (key : α → Nat) (l : List α) (h : l ≠ []) :
    ∃ s, lastArgmax key l = some s ∧ s ∈ l ∧ ∀ t ∈ l, key t ≤ key s := by
  match l, h with
  | a :: l, _ =>
      obtain ⟨s, hs, hmem, hle, hall⟩ := foldl_argmaxStep_some key l a
      refine ⟨s, ?_, ?_, ?_⟩
      · simpa [lastArgmax, argmaxStep] using hs
      · rcases hmem with rfl | hmem
        · exact List.mem_cons_self _ _
        · exact List.mem_cons_of_mem _ hmem
      · intro t ht
        rcases List.mem_cons.mp ht with rfl | ht
        · exact hle
        · exact hall t ht

/-- C1 counterexample: the per-provider selection happily returns a
candidate whose URL contains the `.m3u8` playlist-manifest marker — the
code has no transport/URL filter at all, so the claim as stated is false. -/
theorem selectBest_m3u8_counterexample :
    selectBest [dM3u8] = some "https://cdn.example/master.m3u8" ∧
    strContains ".m3u8" "https://cdn.example/master.m3u8" = true := by
  decide

/-- C1 (amended): the per-provider selection applies no transport or URL
filtering whatsoever — any single candidate with a truthy bitrate within
the 128000 ceiling and a truthy URL is returned by URL verbatim, whatever
that URL contains (in particular `.m3u8` manifests). -/
theorem selectBest_ignores_url_content (u : String) (b tag : Nat)
    (m : Option String) (hu : u ≠ "") (hb : b ≠ 0) (hble : b ≤ 128000) :
    selectBest [⟨some u, some b, some tag, m⟩] = some u := by
  have hb' : (b != 0) = true := by simp [hb]
  simp [selectBest, inCeiling, lastArgmax, argmaxStep, List.filter, hb', hble, hu]

/-- C1 witness: within-ceiling `.m3u8` URL, returned verbatim. -/
theorem selectBest_ignores_url_content_witness :
    selectBest [⟨some "https://cdn.example/master.m3u8", some 96000, some 250, none⟩]
      = some "https://cdn.example/master.m3u8" :=
  selectBest_ignores_url_content "https://cdn.example/master.m3u8" 96000 250 none
    (by decide) (by decide) (by decide)

/-- C2 counterexample: when no candidate is within the 128000 ceiling, the
code falls back to the whole list and still picks the HIGHEST bitrate,
not the lowest-bitrate degraded fallback the claim describes. -/
theorem selectBest_fallback_counterexample :
    (∀ s ∈ [dHigh, dTop], inCeiling s = false) ∧
    bitrateKey dHigh < bitrateKey dTop ∧
    selectBest [dHigh, dTop] = some "https://cdn.example/top" ∧
    selectBest [dHigh, dTop] ≠ some "https://cdn.example/high" := by
  decide

/-- C2 (amended): for a non-empty candidate list whose candidates all
carry truthy URLs, the selection returns the URL of a candidate `s` such
that: if any candidate is within the ceiling then `s` is within the
ceiling and bitrate-maximal among within-ceiling candidates (so an
above-ceiling candidate is never chosen when a within-ceiling one
exists); and if no candidate is within the ceiling then `s` is
bitrate-maximal among ALL candidates (the degraded fallback is the
highest-bitrate candidate, not the lowest). -/
theorem selectBest_ranking (streams : List StreamDescriptor)
    (hne : streams ≠ [])
    (hurl : ∀ s ∈ streams, ∃ u, s.url = some u ∧ u ≠ "") :
    ∃ s ∈ streams, ∃ u, s.url = some u ∧ selectBest streams = some u ∧
      ((∃ t ∈ streams, inCeiling t = true) →
        inCeiling s = true ∧
          ∀ t ∈ streams, inCeiling t = true → bitrateKey t ≤ bitrateKey s) ∧
      ((∀ t ∈ streams, inCeiling t = false) →
        ∀ t ∈ streams, bitrateKey t ≤ bitrateKey s) := by
  by_cases hf : streams.filter inCeiling = []
  · obtain ⟨s, hs, hmem, hall⟩ := lastArgmax_spec bitrateKey streams hne
    obtain ⟨u, hu, hune⟩ := hurl s hmem
    refine ⟨s, hmem, u, hu, ?_, ?_, ?_⟩
    · simp [selectBest, hf, hs, hu, hune]
    · rintro ⟨t, ht, hc⟩
      have : t ∈ streams.filter inCeiling := List.mem_filter.mpr ⟨ht, hc⟩
      rw [hf] at this
      exact absurd this (List.not_mem_nil t)
    · intro _
      exact hall
  · obtain ⟨s, hs, hmem, hall⟩ :=
      lastArgmax_spec bitrateKey (streams.filter inCeiling) hf
    have hmem' : s ∈ streams := List.mem_of_mem_filter hmem
    have hcs : inCeiling s = true := List.of_mem_filter hmem
    obtain ⟨u, hu, hune⟩ := hurl s hmem'
    refine ⟨s, hmem', u, hu, ?_, ?_, ?_⟩
    · simp [selectBest, hf, hs, hu, hune]
    · intro _
      exact ⟨hcs, fun t ht hc => hall t (List.mem_filter.mpr ⟨ht, hc⟩)⟩
    · intro hnone
      exact absurd hcs (by simp [hnone s hmem'])

/-- C2 witness: a mixed list where the within-ceiling candidate is chosen
over the above-ceiling ones. -/
theorem selectBest_ranking_witness :
    ∃ s ∈ [dLow, dHigh], ∃ u, s.url = some u ∧
      selectBest [dLow, dHigh] = some u ∧
      ((∃ t ∈ [dLow, dHigh], inCeiling t = true) →
        inCeiling s = true ∧
          ∀ t ∈ [dLow, dHigh], inCeiling t = true → bitrateKey t ≤ bitrateKey s) ∧
      ((∀ t ∈ [dLow, dHigh], inCeiling t = false) →
        ∀ t ∈ [dLow, dHigh], bitrateKey t ≤ bitrateKey s) :=
  selectBest_ranking [dLow, dHigh] (by decide) (by
    intro s hs
    rcases List.mem_cons.mp hs with rfl | hs
    · exact ⟨"https://cdn.example/low", rfl, by decide⟩
    · rcases List.mem_cons.mp hs with rfl | hs
      · exact ⟨"https://cdn.example/high", rfl, by decide⟩
      · exact absurd hs (List.not_mem_nil s))

/-- C3 counterexample: the itag-250 (preferred-tier) candidate sits on the
second provider and the itag-251 (fallback-tier) candidate on the first,
yet the chain returns the first provider's fallback-tier URL — there is
no tier-across-providers scanning (the code never reads itags at all). -/
theorem chain_tier_counterexample :
    dHigh.itag = some 251 ∧ dLow.itag = some 250 ∧
    resolve_audio_url envTier "vid123" = .ok "https://cdn.example/high" ∧
    ("https://cdn.example/high" : String) ≠ "https://cdn.example/low" := by
  exact ⟨rfl, rfl, rfl, by decide⟩

/-- C3 (amended): the chain is strictly provider-major: whenever the first
configured Piped instance's processed response yields a URL, that URL is
the chain's result, whatever format tags this or any later provider
offers (format tags are never consulted). -/
theorem chain_provider_major (env : ResolveEnv) (vid u : String)
    (h : processPiped
      (env.fetch (pipedStreamUrl "https://pipedapi.kavin.rocks" vid)) = some u) :
    resolve_audio_url env vid = .ok u := by
  simp [resolve_audio_url, tryPiped, PIPED_INSTANCES, h]

/-- C3 witness: the tier environment, whose first provider yields the
above-ceiling candidate's URL. -/
theorem chain_provider_major_witness :
    resolve_audio_url envTier "vid123" = .ok "https://cdn.example/high" :=
  chain_provider_major envTier "vid123" "https://cdn.example/high" (by decide)

/-- C4: when every mirror provider attempt yields no URL and the yt-dlp
last resort also yields nothing, the chain produces exactly the
`No audio URL found after all resolvers` error — never a silent empty
URL — and the /resolve endpoint surfaces it as a 400. -/
theorem chain_exhaustion_raises (env : ResolveEnv) (vid reqUrl : String)
    (h1 : processPiped
      (env.fetch (pipedStreamUrl "https://pipedapi.kavin.rocks" vid)) = none)
    (h2 : processPiped
      (env.fetch (pipedStreamUrl "https://pipedapi.in.projectsegfau.lt" vid)) = none)
    (h3 : processPiped
      (env.fetch (pipedStreamUrl "https://pipedapi.brighteon.wtf" vid)) = none)
    (h4 : processPiped
      (env.fetch (pipedStreamUrl "https://piped.video" vid)) = none)
    (h5 : processYoutubei
      (env.fetch ("https://yt-api.yashvardhan.info/api/v1/video?id=" ++ vid)) = none)
    (h6 : processYtdlp
      (env.ytdlp ("https://www.youtube.com/watch?v=" ++ vid)) = none)
    (hex : extract_video_id (pyStrip reqUrl) = .ok vid) :
    resolve_audio_url env vid = .error "No audio URL found after all resolvers" ∧
    resolve_audio env reqUrl
      = .httpError 400 "Resolve failed: No audio URL found after all resolvers" := by
  have hchain :
      resolve_audio_url env vid = .error "No audio URL found after all resolvers" := by
    simp [resolve_audio_url, tryPiped, PIPED_INSTANCES, h1, h2, h3, h4, h5, h6]
  exact ⟨hchain, by simp [resolve_audio, hex, hchain]⟩

/-- C4 witness: the all-dead world with the canonical short link. -/
theorem chain_exhaustion_raises_witness :
    resolve_audio_url envDead "dQw4w9WgXcQ"
        = .error "No audio URL found after all resolvers" ∧
    resolve_audio envDead "https://youtu.be/dQw4w9WgXcQ"
        = .httpError 400 "Resolve failed: No audio URL found after all resolvers" :=
  chain_exhaustion_raises envDead "dQw4w9WgXcQ" "https://youtu.be/dQw4w9WgXcQ"
    rfl rfl rfl rfl rfl rfl rfl

/-- C5: provider-level failures are absorbed, never propagated: a raised
request/parse exception, a non-200 status, and a missing/null streams key
each yield absence for both response shapes; an absent provider advances
the instance loop to the remaining instances; and the only error the
whole chain can produce is the final exhaustion error. -/
theorem provider_failures_become_absence :
    (processPiped .failure = none ∧ processYoutubei .failure = none) ∧
    (∀ status body, status ≠ 200 →
        processPiped (.ok status body) = none ∧
        processYoutubei (.ok status body) = none) ∧
    (∀ body, body.audioStreams = none → processPiped (.ok 200 body) = none) ∧
    (∀ body, body.adaptiveFormats = none → processYoutubei (.ok 200 body) = none) ∧
    (∀ env vid inst rest,
        processPiped (env.fetch (pipedStreamUrl inst vid)) = none →
        tryPiped env vid (inst :: rest) = tryPiped env vid rest) ∧
    (∀ env vid e, resolve_audio_url env vid = .error e →
        e = "No audio URL found after all resolvers") := by
  refine ⟨⟨rfl, rfl⟩, ?_, ?_, ?_, ?_, ?_⟩
  · intro status body h
    exact ⟨by simp [processPiped, h], by simp [processYoutubei, h]⟩
  · intro body h
    simp [processPiped, h]
  · intro body h
    simp [processYoutubei, h]
  · intro env vid inst rest h
    simp [tryPiped, h]
  · intro env vid e h
    unfold resolve_audio_url at h
    repeat' split at h
    all_goals simp_all

/-- C5 witness: a 503 response is absence for both shapes, and an absent
first instance advances the loop in the all-dead world. -/
theorem provider_failures_become_absence_witness :
    (processPiped (.ok 503 ⟨some [dLow], none⟩) = none ∧
      processYoutubei (.ok 503 ⟨some [dLow], none⟩) = none) ∧
    tryPiped envDead "vid123" ("https://pipedapi.kavin.rocks" :: []) =
      tryPiped envDead "vid123" [] :=
  ⟨provider_failures_become_absence.2.1 503 ⟨some [dLow], none⟩ (by decide),
   provider_failures_become_absence.2.2.2.2.1 envDead "vid123"
     "https://pipedapi.kavin.rocks" [] rfl⟩

/-- C7: the resolution chain is deterministic in its upstream inputs: two
environments answering every request identically produce the same
resolution result for every video identifier. -/
theorem resolve_deterministic (env₁ env₂ : ResolveEnv) (vid : String)
    (hf : ∀ u, env₁.fetch u = env₂.fetch u)
    (hy : ∀ u, env₁.ytdlp u = env₂.ytdlp u) :
    resolve_audio_url env₁ vid = resolve_audio_url env₂ vid := by
  have henv : env₁ = env₂ := by
    cases env₁
    cases env₂
    simp only [ResolveEnv.mk.injEq]
    exact ⟨funext hf, funext hy⟩
  rw [henv]

/-- C7 witness: the all-dead world compared with itself. -/
theorem resolve_deterministic_witness :
    resolve_audio_url envDead "dQw4w9WgXcQ" = resolve_audio_url envDead "dQw4w9WgXcQ" :=
  resolve_deterministic envDead envDead "dQw4w9WgXcQ" (fun _ => rfl) (fun _ => rfl)

/-!  Lemmas about the regex scan behind extract_video_id. -/

theorem isPre_self_append (tag l : List Char) : isPre tag (tag ++ l) = true := by
  induction tag with
  | nil => rfl
  | cons a tag ih => simp [isPre, ih]

theorem isPre_append_eq (tag : List Char) :
    ∀ l : List Char, isPre tag l = true → l = tag ++ l.drop tag.length := by
  induction tag with
  | nil => intro l _; simp
  | cons a tag ih =>
      intro l h
      cases l with
      | nil => simp [isPre] at h
      | cons b l =>
          simp only [isPre, Bool.and_eq_true, beq_iff_eq] at h
          obtain ⟨rfl, h2⟩ := h
          simpa using ih l h2

theorem takeWhile_append_all {p : Char → Bool} :
    ∀ l1 l2 : List Char, (∀ c ∈ l1, p c = true) →
      (l1 ++ l2).takeWhile p = l1 ++ l2.takeWhile p := by
  intro l1
  induction l1 with
  | nil => intro l2 _; rfl
  | cons a l1 ih =>
      intro l2 h
      have ha : p a = true := h a (List.mem_cons_self _ _)
      simp only [List.cons_append, List.takeWhile_cons, ha, if_true]
      simpa using ih l2 (fun c hc => h c (List.mem_cons_of_mem _ hc))

theorem takeWhile_nil_of_head {p : Char → Bool} (l : List Char)
    (h : ∀ c, l.head? = some c → p c = false) : l.takeWhile p = [] := by
  cases l with
  | nil => rfl
  | cons a l => simp [List.takeWhile_cons, h a rfl]

theorem matchTag_some_form {tag l cap : List Char}
    (h : matchTag tag l = some cap) :
    ∃ c r, idChar c = true ∧ l = tag ++ c :: r := by
  by_cases hp : isPre tag l = true
  · have hl := isPre_append_eq tag l hp
    cases hr : l.drop tag.length with
    | nil => simp [matchTag, hp, hr] at h
    | cons c r =>
        cases hc : idChar c with
        | false => simp [matchTag, hp, hr, List.takeWhile_cons, hc] at h
        | true => exact ⟨c, r, hc, by rw [hl, hr]⟩
  · simp [matchTag, hp] at h

theorem matchTag_self_append (tag : List Char) (c : Char) (r : List Char)
    (hc : idChar c = true) :
    matchTag tag (tag ++ c :: r) = some (c :: r.takeWhile idChar) := by
  simp [matchTag, isPre_self_append, List.drop_left, List.takeWhile_cons, hc]

theorem tryPos_some_form {l cap : List Char} (h : tryPos l = some cap) :
    ∃ c r, idChar c = true ∧ (l = vTag ++ c :: r ∨ l = shortTag ++ c :: r) := by
  unfold tryPos at h
  cases hm : matchTag vTag l with
  | some cap2 =>
      obtain ⟨c, r, hc, hl⟩ := matchTag_some_form hm
      exact ⟨c, r, hc, Or.inl hl⟩
  | none =>
      rw [hm] at h
      obtain ⟨c, r, hc, hl⟩ := matchTag_some_form h
      exact ⟨c, r, hc, Or.inr hl⟩

theorem tryPos_vTag_front (c : Char) (r : List Char) (hc : idChar c = true) :
    tryPos (vTag ++ c :: r) = some (c :: r.takeWhile idChar) := by
  simp [tryPos, matchTag_self_append vTag c r hc]

theorem tryPos_shortTag_front (c : Char) (r : List Char) (hc : idChar c = true) :
    tryPos (shortTag ++ c :: r) = some (c :: r.takeWhile idChar) := by
  have h1 : matchTag vTag (shortTag ++ c :: r) = none := by
    simp [matchTag, vTag, shortTag, isPre]
  simp [tryPos, h1, matchTag_self_append shortTag c r hc]

theorem tryPos_none_head (a : Char) (rest : List Char)
    (hv : a ≠ 'v') (hy : a ≠ 'y') : tryPos (a :: rest) = none := by
  have hva : (('v' : Char) == a) = false := beq_eq_false_iff_ne.mpr (Ne.symm hv)
  have hya : (('y' : Char) == a) = false := beq_eq_false_iff_ne.mpr (Ne.symm hy)
  simp [tryPos, matchTag, vTag, shortTag, isPre, hva, hya]

theorem searchFrom_cons_none_iff (a : Char) (rest : List Char) :
    searchFrom (a :: rest) = none ↔
      tryPos (a :: rest) = none ∧ searchFrom rest = none := by
  cases h : tryPos (a :: rest) <;> simp [searchFrom, h]

theorem searchFrom_skip :
    ∀ pre : List Char, (∀ c ∈ pre, c ≠ 'v' ∧ c ≠ 'y') →
      ∀ l, searchFrom (pre ++ l) = searchFrom l := by
  intro pre
  induction pre with
  | nil => intro _ l; rfl
  | cons a pre ih =>
      intro h l
      have ha := h a (List.mem_cons_self _ _)
      have htry : tryPos (a :: (pre ++ l)) = none :=
        tryPos_none_head _ _ ha.1 ha.2
      rw [List.cons_append]
      rw [show searchFrom (a :: (pre ++ l)) = searchFrom (pre ++ l) by
        simp [searchFrom, htry]]
      exact ih (fun c hc => h c (List.mem_cons_of_mem _ hc)) l

theorem matchSite_cons_iff (a : Char) (rest : List Char) :
    MatchSite (a :: rest) ↔
      (∃ c r, idChar c = true ∧
        (a :: rest = vTag ++ c :: r ∨ a :: rest = shortTag ++ c :: r)) ∨
      MatchSite rest := by
  constructor
  · rintro ⟨pre, c, r, hc, hl | hl⟩
    · cases pre with
      | nil => exact Or.inl ⟨c, r, hc, Or.inl (by simpa using hl)⟩
      | cons p ps =>
          rw [List.cons_append, List.cons_append] at hl
          injection hl with h1 h2
          exact Or.inr ⟨ps, c, r, hc, Or.inl (by simpa using h2)⟩
    · cases pre with
      | nil => exact Or.inl ⟨c, r, hc, Or.inr (by simpa using hl)⟩
      | cons p ps =>
          rw [List.cons_append, List.cons_append] at hl
          injection hl with h1 h2
          exact Or.inr ⟨ps, c, r, hc, Or.inr (by simpa using h2)⟩
  · rintro (⟨c, r, hc, hl | hl⟩ | ⟨pre, c, r, hc, hl | hl⟩)
    · exact ⟨[], c, r, hc, Or.inl (by simpa using hl)⟩
    · exact ⟨[], c, r, hc, Or.inr (by simpa using hl)⟩
    · exact ⟨a :: pre, c, r, hc, Or.inl (by simp [hl])⟩
    · exact ⟨a :: pre, c, r, hc, Or.inr (by simp [hl])⟩

theorem searchFrom_none_iff :
    ∀ l : List Char, searchFrom l = none ↔ ¬ MatchSite l := by
  intro l
  induction l with
  | nil =>
      simp only [searchFrom, true_iff]
      rintro ⟨pre, c, r, hc, hl | hl⟩ <;> simp [vTag, shortTag] at hl
  | cons a rest ih =>
      rw [searchFrom_cons_none_iff, matchSite_cons_iff]
      constructor
      · rintro ⟨h1, h2⟩ (⟨c, r, hc, hl | hl⟩ | hms)
        · rw [hl, tryPos_vTag_front c r hc] at h1
          exact Option.noConfusion h1
        · rw [hl, tryPos_shortTag_front c r hc] at h1
          exact Option.noConfusion h1
        · exact (ih.mp h2) hms
      · intro hn
        refine ⟨?_, ih.mpr fun hms => hn (Or.inr hms)⟩
        cases ht : tryPos (a :: rest) with
        | none => rfl
        | some cap =>
            obtain ⟨c, r, hc, hl⟩ := tryPos_some_form ht
            exact absurd (Or.inl ⟨c, r, hc, hl⟩) hn

theorem searchFrom_cons_skip (a : Char) (rest : List Char)
    (h : tryPos (a :: rest) = none) :
    searchFrom (a :: rest) = searchFrom rest := by
  simp [searchFrom, h]

theorem tryPos_none_youtub (rest : List Char) :
    tryPos ('y' :: 'o' :: 'u' :: 't' :: 'u' :: 'b' :: rest) = none := by
  simp [tryPos, matchTag, vTag, shortTag, isPre]

theorem tryPos_vTag_cons (c : Char) (r : List Char) (hc : idChar c = true) :
    tryPos ('v' :: '=' :: c :: r) = some (c :: r.takeWhile idChar) := by
  simp [tryPos, matchTag, vTag, isPre, List.takeWhile_cons, hc]

theorem tryPos_shortTag_cons (c : Char) (r : List Char) (hc : idChar c = true) :
    tryPos ('y' :: 'o' :: 'u' :: 't' :: 'u' :: '.' :: 'b' :: 'e' :: '/' :: c :: r)
      = some (c :: r.takeWhile idChar) := by
  simp [tryPos, matchTag, vTag, shortTag, isPre, List.takeWhile_cons, hc]

/-- C6 counterexample: the regex searches for `v=` anywhere in the string,
so `"av=xyz"` — which is in neither the `watch?v=ID` form nor the
`youtu.be/ID` form — succeeds with `"xyz"` instead of failing with the
invalid-input error the claim demands for non-form strings. -/
theorem extract_video_id_counterexample :
    extract_video_id "av=xyz" = .ok "xyz" ∧
    strContains "watch?" "av=xyz" = false ∧
    strContains "youtu.be/" "av=xyz" = false := by
  exact ⟨rfl, by decide, by decide⟩

/-- C6 (amended): the canonical `watch?v=ID` and `youtu.be/ID` URLs yield
`ID` exactly (for any identifier over the regex's character class, with
any suffix not starting with an identifier character); and extraction
fails with the invalid-input error exactly when the string contains no
occurrence of `v=` or `youtu.be/` immediately followed by an identifier
character — so some strings in neither canonical form also succeed. -/
theorem extract_video_id_spec :
    (∀ id suf : String, id ≠ "" → (∀ c ∈ id.toList, idChar c = true) →
        (∀ c, suf.toList.head? = some c → idChar c = false) →
        extract_video_id ("https://www.youtube.com/watch?v=" ++ id ++ suf) = .ok id ∧
        extract_video_id ("https://youtu.be/" ++ id ++ suf) = .ok id) ∧
    (∀ url : String, extract_video_id url = .error "Invalid YouTube URL" ↔
        ¬ MatchSite url.toList) := by
  constructor
  · intro id suf hid hall hsuf
    have hmk : String.mk id.toList = id := rfl
    have hidl : id.toList ≠ [] := by
      intro h0
      exact hid (by rw [← hmk, h0])
    obtain ⟨c, idl, hc_eq⟩ : ∃ c idl, id.toList = c :: idl := by
      cases hidc : id.toList with
      | nil => exact absurd hidc hidl
      | cons c idl => exact ⟨c, idl, rfl⟩
    have hc : idChar c = true :=
      hall c (by rw [hc_eq]; exact List.mem_cons_self _ _)
    have hall' : ∀ x ∈ idl, idChar x = true :=
      fun x hx => hall x (by rw [hc_eq]; exact List.mem_cons_of_mem _ hx)
    have htail : (idl ++ suf.toList).takeWhile idChar = idl := by
      rw [takeWhile_append_all idl suf.toList hall',
        takeWhile_nil_of_head suf.toList hsuf, List.append_nil]
    constructor
    · unfold extract_video_id
      have h1 : ("https://www.youtube.com/watch?v=" ++ id ++ suf).toList
          = "https://www.".toList ++ ('y' :: 'o' :: 'u' :: 't' :: 'u' :: 'b' ::
              ("e.com/watch?".toList
                ++ ('v' :: '=' :: (id.toList ++ suf.toList)))) := rfl
      rw [h1, searchFrom_skip _ (by decide) _]
      rw [searchFrom_cons_skip _ _ (tryPos_none_youtub _)]
      rw [searchFrom_cons_skip _ _ (tryPos_none_head 'o' _ (by decide) (by decide))]
      rw [searchFrom_cons_skip _ _ (tryPos_none_head 'u' _ (by decide) (by decide))]
      rw [searchFrom_cons_skip _ _ (tryPos_none_head 't' _ (by decide) (by decide))]
      rw [searchFrom_cons_skip _ _ (tryPos_none_head 'u' _ (by decide) (by decide))]
      rw [searchFrom_cons_skip _ _ (tryPos_none_head 'b' _ (by decide) (by decide))]
      rw [searchFrom_skip _ (by decide) _]
      rw [hc_eq, List.cons_append]
      have hfound : searchFrom ('v' :: '=' :: c :: (idl ++ suf.toList))
          = some id.toList := by
        simp only [searchFrom, tryPos_vTag_cons c _ hc]
        rw [htail, hc_eq]
      rw [hfound]
      exact congrArg Except.ok hmk
    · unfold extract_video_id
      have h2 : ("https://youtu.be/" ++ id ++ suf).toList
          = "https://".toList ++ ('y' :: 'o' :: 'u' :: 't' :: 'u' :: '.' :: 'b' ::
              'e' :: '/' :: (id.toList ++ suf.toList)) := rfl
      rw [h2, searchFrom_skip _ (by decide) _]
      rw [hc_eq, List.cons_append]
      have hfound : searchFrom
          ('y' :: 'o' :: 'u' :: 't' :: 'u' :: '.' :: 'b' :: 'e' :: '/' ::
            c :: (idl ++ suf.toList)) = some id.toList := by
        simp only [searchFrom, tryPos_shortTag_cons c _ hc]
        rw [htail, hc_eq]
      rw [hfound]
      exact congrArg Except.ok hmk
  · intro url
    unfold extract_video_id
    cases h : searchFrom url.toList with
    | some cap =>
        have hms : MatchSite url.toList := by
          by_contra hn
          rw [(searchFrom_none_iff _).mpr hn] at h
          exact Option.noConfusion h
        simp [hms]
        exact hms
    | none =>
        simp
        exact (searchFrom_none_iff _).mp h

/-- C6 witness: the canonical id extracted from both URL forms. -/
theorem extract_video_id_spec_witness :
    extract_video_id ("https://www.youtube.com/watch?v=" ++ "dQw4w9WgXcQ" ++ "")
        = .ok "dQw4w9WgXcQ" ∧
    extract_video_id ("https://youtu.be/" ++ "dQw4w9WgXcQ" ++ "")
        = .ok "dQw4w9WgXcQ" :=
  extract_video_id_spec.1 "dQw4w9WgXcQ" "" (by decide) (by decide)
    (by intro c hc; simp at hc)

/-- C8: a query that already looks like a direct video URL is answered by
a single-item lookup of that one video: /search returns exactly the
one-song list built from the library's URL lookup (no keyword search, no
keyword filter). -/
theorem search_url_single_lookup (env : SearchEnv) (q : String)
    (info : RawEntry)
    (hyt : isYoutubeQuery (pyStrip q) = true)
    (hlk : env.urlLookup (pyStrip q) = some info) :
    search_song env q = .ok [toSong info] := by
  simp [search_song, youtube_search, hyt, hlk]

/-- C8 witness: the canonical short-link query against the sample world. -/
theorem search_url_single_lookup_witness :
    search_song envSearch "https://youtu.be/dQw4w9WgXcQ" = .ok [toSong sampleEntry] :=
  search_url_single_lookup envSearch "https://youtu.be/dQw4w9WgXcQ" sampleEntry
    (by decide) (by decide)

/-- C9: for every non-URL query the keyword relevance filter is applied
unconditionally: every returned song's lowercased title-artist
concatenation contains one of the four music keywords; and the filter can
empty the result list even when the upstream search returned entries. -/
theorem search_keyword_filter :
    (∀ (env : SearchEnv) (q : String) (songs : List Song),
        isYoutubeQuery (pyStrip q) = false →
        search_song env q = .ok songs →
        ∀ s ∈ songs, keywordRelevant s = true) ∧
    (∃ (env : SearchEnv) (q : String) (raw : List Song),
        isYoutubeQuery (pyStrip q) = false ∧
        youtube_search env (pyStrip q) 15 = .ok raw ∧
        raw ≠ [] ∧
        search_song env q = .ok []) := by
  constructor
  · intro env q songs hyt hok s hs
    simp only [search_song, hyt, Bool.false_eq_true, if_false] at hok
    cases hh : youtube_search env (pyStrip q) 15 with
    | error e =>
        rw [hh] at hok
        exact absurd hok (by simp)
    | ok raw =>
        rw [hh] at hok
        have hsongs : songs = (raw.filter keywordRelevant).take 15 := by
          injection hok with h
          exact h.symm
        rw [hsongs] at hs
        exact List.of_mem_filter (List.mem_of_mem_take hs)
  · refine ⟨envSearch, "lofi chill", [toSong lofiEntry], by decide, rfl, by simp, rfl⟩

/-- C9 witness: the sample world's non-URL query, where the upstream
search returned an entry but the filtered result is empty. -/
theorem search_keyword_filter_witness :
    ∀ s ∈ ([] : List Song), keywordRelevant s = true :=
  search_keyword_filter.1 envSearch "lofi chill" [] (by decide) rfl

/-- C10 counterexample: an entry lacking a video id but carrying its own
thumbnail is mapped to a summary whose thumbnail is that URL verbatim,
not the empty string the claim asserts for every id-less entry. -/
theorem toSong_thumbnail_counterexample :
    (toSong ⟨none, some "T", some "A", some "https://t.example/x.jpg"⟩).url = "" ∧
    (toSong ⟨none, some "T", some "A", some "https://t.example/x.jpg"⟩).thumbnail
      = "https://t.example/x.jpg" ∧
    (toSong ⟨none, some "T", some "A", some "https://t.example/x.jpg"⟩).thumbnail
      ≠ "" := by
  exact ⟨rfl, rfl, by decide⟩

/-- C10 (amended): an entry without a truthy video id still yields a
summary whose url is the empty string; its thumbnail is the empty string
exactly when the entry also lacks a truthy thumbnail of its own (an
entry-provided non-empty thumbnail is kept verbatim); and title/artist
default to `Unknown` / `Unknown Artist` when absent or empty. -/
theorem toSong_defaults (e : RawEntry) (hid : truthyStr e.id = false) :
    (toSong e).url = "" ∧
    (truthyStr e.thumbnail = false → (toSong e).thumbnail = "") ∧
    (truthyStr e.thumbnail = true → (toSong e).thumbnail = e.thumbnail.getD "") ∧
    (truthyStr e.title = false → (toSong e).title = "Unknown") ∧
    (truthyStr e.uploader = false → (toSong e).artist = "Unknown Artist") := by
  refine ⟨by simp [toSong, hid], ?_, ?_, ?_, ?_⟩
  · intro ht
    cases h : e.thumbnail with
    | none => simp [toSong, orDefault, h, hid]
    | some t =>
        rw [h] at ht
        simp only [truthyStr, bne_eq_false_iff_eq] at ht
        simp [toSong, orDefault, h, ht, hid]
  · intro ht
    cases h : e.thumbnail with
    | none => rw [h] at ht; simp [truthyStr] at ht
    | some t =>
        rw [h] at ht
        simp only [truthyStr, bne_iff_ne, ne_eq] at ht
        simp [toSong, orDefault, h, ht]
  · intro htt
    cases h : e.title with
    | none => simp [toSong, orDefault, h]
    | some t =>
        rw [h] at htt
        simp only [truthyStr, bne_eq_false_iff_eq] at htt
        simp [toSong, orDefault, h, htt]
  · intro hup
    cases h : e.uploader with
    | none => simp [toSong, orDefault, h]
    | some t =>
        rw [h] at hup
        simp only [truthyStr, bne_eq_false_iff_eq] at hup
        simp [toSong, orDefault, h, hup]

/-- C10 witness: the all-absent entry gets the full set of defaults. -/
theorem toSong_defaults_witness :
    (toSong blankEntry).url = "" ∧
    (truthyStr blankEntry.thumbnail = false → (toSong blankEntry).thumbnail = "") ∧
    (truthyStr blankEntry.thumbnail = true →
      (toSong blankEntry).thumbnail = blankEntry.thumbnail.getD "") ∧
    (truthyStr blankEntry.title = false → (toSong blankEntry).title = "Unknown") ∧
    (truthyStr blankEntry.uploader = false →
      (toSong blankEntry).artist = "Unknown Artist") :=
  toSong_defaults blankEntry rfl

end Serena
